import Mathlib

/-!
Shallow embedding of `src/torneio_app.py` (a Flask registration service for a
basketball tournament).  Pure helpers (`only_digits`, `format_rg`,
`format_phone`, `validar_rg`, `validar_idade`, `validar_telefone`) are
translated directly.  The stateful route `inscrever` is modelled as explicit
state passing over an in-memory image of the SQLite table `inscricoes`; the
routes `listar_inscritos` and `estatisticas` are read-only functions of that
state.  JSON values arriving in the request body are modelled by `JsonValue`,
with JSON numbers kept as exact decimals (an integer mantissa times a power of
ten), and Python's `int(...)` conversion modelled by `pyInt` (truncation
toward zero on numbers via `Int.tdiv`, strict integer parsing on strings).
Characters are
compared with ASCII digit tests, matching the digit classes the inputs use.
-/

/-- Python `str.strip()`: drop whitespace from both ends. -/
def pyStrip (s : String) : String :=
  String.mk (((s.data.dropWhile Char.isWhitespace).reverse.dropWhile
    Char.isWhitespace).reverse)

/-- `only_digits(s)`: `re.sub(r"\D", "", s or "")` — keep only digit
characters. -/
def only_digits (s : String) : String :=
  String.mk (s.data.filter Char.isDigit)

/-- `format_rg(rg)`: normalize to digits; if exactly 9 digits, format as
`NN.NNN.NNN-N` (slices `d[0:2]`, `d[2:5]`, `d[5:8]`, `d[8:9]`); otherwise
return the digit string unchanged. -/
def format_rg (rg : String) : String :=
  let d := only_digits rg
  if d.length = 9 then
    String.mk (d.data.take 2 ++ ['.'] ++ ((d.data.drop 2).take 3) ++ ['.']
      ++ ((d.data.drop 5).take 3) ++ ['-'] ++ ((d.data.drop 8).take 1))
  else d

/-- `format_phone(phone)`: 10 digits → `(DD) DDDD-DDDD` (slices `d[0:2]`,
`d[2:6]`, `d[6:10]`); 11 digits → `(DD) DDDDD-DDDD` (slices `d[0:2]`,
`d[2:7]`, `d[7:11]`); otherwise the digit string unchanged. -/
def format_phone (phone : String) : String :=
  let d := only_digits phone
  if d.length = 10 then
    String.mk (['('] ++ d.data.take 2 ++ [')', ' '] ++ ((d.data.drop 2).take 4)
      ++ ['-'] ++ ((d.data.drop 6).take 4))
  else if d.length = 11 then
    String.mk (['('] ++ d.data.take 2 ++ [')', ' '] ++ ((d.data.drop 2).take 5)
      ++ ['-'] ++ ((d.data.drop 7).take 4))
  else d

/-- `validar_rg(rg)`: the digit-normalized form has 7 to 12 digits. -/
def validar_rg (rg : String) : Bool :=
  7 ≤ (only_digits rg).length && (only_digits rg).length ≤ 12

/-- `validar_telefone(telefone)`: the digit-normalized form has 10 or 11
digits. -/
def validar_telefone (telefone : String) : Bool :=
  (only_digits telefone).length = 10 || (only_digits telefone).length = 11

/-- A JSON value as it can arrive in the `idade` field of the request body.
A JSON number literal is an exact decimal `mant × 10 ^ (-frac)`. -/
inductive JsonValue where
  | num (mant : Int) (frac : Nat)
  | str (s : String)
  | bool (b : Bool)
  | null
deriving DecidableEq, Repr

/-- Decimal value of the digit characters of `l` (most significant first). -/
def digitsToNat (l : List Char) : Nat :=
  l.foldl (fun a c => a * 10 + (c.toNat - '0'.toNat)) 0

/-- Python `int(s)` on a string: surrounding whitespace stripped, an optional
sign, then at least one digit; anything else (e.g. `"17.9"`) raises
`ValueError`, modelled as `none`. -/
def parsePyInt (s : String) : Option Int :=
  let l := (pyStrip s).data
  match l with
  | '+' :: rest =>
      if rest ≠ [] ∧ rest.all Char.isDigit then some (digitsToNat rest) else none
  | '-' :: rest =>
      if rest ≠ [] ∧ rest.all Char.isDigit then some (-(digitsToNat rest : Int)) else none
  | _ =>
      if l ≠ [] ∧ l.all Char.isDigit then some (digitsToNat l) else none

/-- Truncation toward zero of the decimal `mant × 10 ^ (-frac)` — the value of
Python `int(x)` on that number.  `Int.tdiv` is T-division (rounds toward 0). -/
def pyTrunc (mant : Int) (frac : Nat) : Int :=
  Int.tdiv mant ((10 : Int) ^ frac)

/-- Python `int(idade)` on a JSON value: numbers truncate toward zero, strings
must parse as an integer literal, booleans convert to 0/1, `null` raises
`TypeError` (modelled as `none`). -/
def pyInt : JsonValue → Option Int
  | .num m f => some (pyTrunc m f)
  | .str s => parsePyInt s
  | .bool b => some (if b then 1 else 0)
  | .null => none

/-- `validar_idade(idade)`: `int(idade)` must succeed and lie in `[5, 100]`;
any conversion failure is caught and reported as `False` (never thrown). -/
def validar_idade (idade : JsonValue) : Bool :=
  match pyInt idade with
  | some i => decide (5 ≤ i ∧ i ≤ 100)
  | none => false

/-- The string-typed view of the request body of `POST /api/inscrever`, as it
looks after the route's extraction step `(dados.get(k) or "").strip()` has
succeeded on every text field: each text field is either absent/null (`none`)
or a string; `idade` is an arbitrary JSON value.  The full route on raw JSON
bodies — including the truthy non-string fields on which `.strip()` raises —
is modelled by `DadosJson` and `inscreverRota` below. -/
structure Dados where
  nome_completo : Option String := none
  idade : JsonValue := .null
  telefone : Option String := none
  rg : Option String := none
  nome_responsavel : Option String := none
  rg_responsavel : Option String := none
deriving DecidableEq, Repr

/-- A row of the `inscricoes` table. -/
structure Registro where
  id : Nat
  nome_completo : String
  idade : Int
  telefone : String
  rg : String
  eh_menor : Nat
  nome_responsavel : Option String
  rg_responsavel : Option String
  data_inscricao : Nat
  status : String
deriving DecidableEq, Repr

/-- The persistent store: the rows of `inscricoes` in insertion order, and the
next AUTOINCREMENT id. -/
structure Estado where
  rows : List Registro
  nextId : Nat
deriving DecidableEq, Repr

/-- A fresh database (`init_db` on a new file; ids start at 1). -/
def estadoVazio : Estado := { rows := [], nextId := 1 }

instance {ε α : Type} [DecidableEq ε] [DecidableEq α] : DecidableEq (Except ε α) :=
  fun a b =>
    match a, b with
    | .error e, .error f =>
        if h : e = f then .isTrue (by rw [h]) else .isFalse (by simp [h])
    | .error _, .ok _ => .isFalse (by simp)
    | .ok _, .error _ => .isFalse (by simp)
    | .ok x, .ok y =>
        if h : x = y then .isTrue (by rw [h]) else .isFalse (by simp [h])

/-- The typed rejections of `inscrever`, one per early-return branch. -/
inductive Erro where
  | nomeObrigatorio
  | idadeInvalida
  | telefoneInvalido
  | rgInvalido
  | nomeResponsavelObrigatorio
  | rgResponsavelInvalido
  | rgJaCadastrado
deriving DecidableEq, Repr

/-- The human-readable reason returned with each rejection. -/
def erroMsg : Erro → String
  | .nomeObrigatorio => "Nome completo é obrigatório"
  | .idadeInvalida => "Idade inválida"
  | .telefoneInvalido => "Telefone inválido (use 10 ou 11 dígitos)"
  | .rgInvalido => "RG inválido"
  | .nomeResponsavelObrigatorio => "Nome do responsável é obrigatório"
  | .rgResponsavelInvalido => "RG do responsável inválido"
  | .rgJaCadastrado => "RG já cadastrado"

/-- The HTTP status attached to each rejection: 409 for the duplicate
identity, 400 for every validation failure. -/
def erroStatus : Erro → Nat
  | .rgJaCadastrado => 409
  | _ => 400

/-- The values `inscrever` computes once every validation passed, just before
touching the database. -/
structure Candidato where
  nome : String
  idade_int : Int
  eh_menor : Nat
  telefone_fmt : String
  rg_fmt : String
  rg_digits : String
  nome_resp : String
  rg_resp_fmt : String
deriving DecidableEq, Repr

/-- The validation phase of `inscrever` (everything before `get_conn()`),
evaluated in source order with the first failure winning. -/
def valida (dados : Dados) : Except Erro Candidato :=
  let nome := pyStrip (dados.nome_completo.getD "")
  let telefone := pyStrip (dados.telefone.getD "")
  let rg := pyStrip (dados.rg.getD "")
  if nome = "" then .error .nomeObrigatorio
  else if !validar_idade dados.idade then .error .idadeInvalida
  else if !validar_telefone telefone then .error .telefoneInvalido
  else if !validar_rg rg then .error .rgInvalido
  else
    let idade_int := (pyInt dados.idade).getD 0
    let eh_menor : Nat := if idade_int < 18 then 1 else 0
    let nome_resp := pyStrip (dados.nome_responsavel.getD "")
    let rg_resp := pyStrip (dados.rg_responsavel.getD "")
    if eh_menor = 1 && nome_resp = "" then .error .nomeResponsavelObrigatorio
    else if eh_menor = 1 && !validar_rg rg_resp then .error .rgResponsavelInvalido
    else .ok
      { nome := nome
        idade_int := idade_int
        eh_menor := eh_menor
        telefone_fmt := format_phone telefone
        rg_fmt := format_rg rg
        rg_digits := only_digits rg
        nome_resp := nome_resp
        rg_resp_fmt := if rg_resp ≠ "" then format_rg rg_resp else "" }

/-- The row INSERTed for candidate `c` at time `t` with AUTOINCREMENT id `i`:
guardian columns are NULL unless the registrant is a minor, `status` defaults
to `pendente`, `data_inscricao` to the current time. -/
def registroNovo (c : Candidato) (t : Nat) (i : Nat) : Registro :=
  { id := i
    nome_completo := c.nome
    idade := c.idade_int
    telefone := c.telefone_fmt
    rg := c.rg_fmt
    eh_menor := c.eh_menor
    nome_responsavel := if c.eh_menor = 1 then some c.nome_resp else none
    rg_responsavel := if c.eh_menor = 1 then some c.rg_resp_fmt else none
    data_inscricao := t
    status := "pendente" }

/-- The store phase of `inscrever`: scan every stored row, comparing the
digit-normalized form of the stored `rg` against the incoming digits
(returning HTTP 409 on a hit), then INSERT the new row. -/
def inserir (c : Candidato) (t : Nat) (s : Estado) : Except Erro (Estado × Registro) :=
  if s.rows.any (fun r => only_digits r.rg = c.rg_digits) then .error .rgJaCadastrado
  else
    .ok ({ rows := s.rows ++ [registroNovo c t s.nextId], nextId := s.nextId + 1 },
         registroNovo c t s.nextId)

/-- `POST /api/inscrever` on body `dados`, at time `t`, against store `s`:
validation phase then duplicate-checked insert.  An `.error` leaves the store
untouched. -/
def inscrever (dados : Dados) (t : Nat) (s : Estado) : Except Erro (Estado × Registro) :=
  match valida dados with
  | .error e => .error e
  | .ok c => inserir c t s

/-- The listing order of `GET /api/inscritos`: `ORDER BY
datetime(data_inscricao) DESC, id DESC`. -/
def RegLe (a b : Registro) : Prop :=
  b.data_inscricao < a.data_inscricao ∨
    (b.data_inscricao = a.data_inscricao ∧ b.id ≤ a.id)

instance : DecidableRel RegLe := fun a b => by
  unfold RegLe; infer_instance

instance : IsTotal Registro RegLe :=
  ⟨fun a b => by unfold RegLe; omega⟩

instance : IsTrans Registro RegLe :=
  ⟨fun a b c hab hbc => by unfold RegLe at *; omega⟩

/-- `GET /api/inscritos`: all rows, sorted by timestamp descending, ties by id
descending. -/
def listar_inscritos (s : Estado) : List Registro :=
  List.insertionSort RegLe s.rows

/-- The payload of `GET /api/estatisticas`. -/
structure Stats where
  total_inscritos : Nat
  menores_de_18 : Nat
  maiores_de_18 : Nat
deriving DecidableEq, Repr

/-- `GET /api/estatisticas`: `COUNT(*)`, `COUNT(*) WHERE eh_menor = 1`, and
adults derived as the difference. -/
def estatisticas (s : Estado) : Stats :=
  let total := s.rows.length
  let menores := (s.rows.filter (fun r => r.eh_menor = 1)).length
  { total_inscritos := total
    menores_de_18 := menores
    maiores_de_18 := total - menores }

/-- The value `valida` returns on success, spelled out (the record built in
its final branch). -/
def candidatoDe (dados : Dados) : Candidato :=
  { nome := pyStrip (dados.nome_completo.getD "")
    idade_int := (pyInt dados.idade).getD 0
    eh_menor := if (pyInt dados.idade).getD 0 < 18 then 1 else 0
    telefone_fmt := format_phone (pyStrip (dados.telefone.getD ""))
    rg_fmt := format_rg (pyStrip (dados.rg.getD ""))
    rg_digits := only_digits (pyStrip (dados.rg.getD ""))
    nome_resp := pyStrip (dados.nome_responsavel.getD "")
    rg_resp_fmt :=
      if pyStrip (dados.rg_responsavel.getD "") ≠ "" then
        format_rg (pyStrip (dados.rg_responsavel.getD ""))
      else "" }

/-- A raw JSON request body for `POST /api/inscrever`: `request.get_json`
puts no type constraint on any field, so every field is an arbitrary JSON
value. -/
structure DadosJson where
  nome_completo : JsonValue := .null
  idade : JsonValue := .null
  telefone : JsonValue := .null
  rg : JsonValue := .null
  nome_responsavel : JsonValue := .null
  rg_responsavel : JsonValue := .null
deriving DecidableEq, Repr

/-- The route's text-field extraction `(dados.get(k) or "").strip()` on a
JSON value: a missing/null field and every falsy value (empty string, the
number zero, `false`) coerce to the empty string, a string is stripped, and
a truthy non-string (a nonzero number, `true`) reaches `.strip()` and raises
`AttributeError` — modelled as `none`. -/
def pyStrField : JsonValue → Option String
  | .null => some ""
  | .str s => some (pyStrip s)
  | .bool b => if b then none else some ""
  | .num m _ => if m = 0 then some "" else none

/-- The observable outcome of the route: a typed rule rejection (a 400/409
JSON body carrying `erroMsg`), the generic internal error produced by the
route's broad `except` handler when something raises inside (HTTP 500,
"Erro interno no servidor"), or success with the updated store and the
persisted row. -/
inductive Saida where
  | rejeicao (e : Erro)
  | erroInterno
  | ok (s : Estado) (r : Registro)
deriving DecidableEq, Repr

/-- The 500 message of the broad `except` handler. -/
def msgErroInterno : String := "Erro interno no servidor"

/-- The HTTP status of the broad `except` handler. -/
def statusErroInterno : Nat := 500

/-- The full `/api/inscrever` route on a raw JSON body, including its string
extraction steps in source order: `nome_completo`, `telefone` and `rg` are
extracted up front (lines 184-187), the guardian fields only after the first
four rules pass (lines 210-211); an extraction that raises lands in the
route's broad `except` as `Saida.erroInterno`.  (A body that is not a JSON
object at all fails the same way at `dados.get` and is not modelled
further.)  Once every needed extraction succeeds, the validations, the
duplicate scan and the insert are those of `inscrever`. -/
def inscreverRota (dj : DadosJson) (t : Nat) (s : Estado) : Saida :=
  match pyStrField dj.nome_completo, pyStrField dj.telefone, pyStrField dj.rg with
  | some nome, some telefone, some rg =>
    if nome = "" then .rejeicao .nomeObrigatorio
    else if !validar_idade dj.idade then .rejeicao .idadeInvalida
    else if !validar_telefone telefone then .rejeicao .telefoneInvalido
    else if !validar_rg rg then .rejeicao .rgInvalido
    else
      let idade_int := (pyInt dj.idade).getD 0
      let eh_menor : Nat := if idade_int < 18 then 1 else 0
      match pyStrField dj.nome_responsavel, pyStrField dj.rg_responsavel with
      | some nome_resp, some rg_resp =>
        if eh_menor = 1 && nome_resp = "" then .rejeicao .nomeResponsavelObrigatorio
        else if eh_menor = 1 && !validar_rg rg_resp then .rejeicao .rgResponsavelInvalido
        else
          match inserir
              { nome := nome
                idade_int := idade_int
                eh_menor := eh_menor
                telefone_fmt := format_phone telefone
                rg_fmt := format_rg rg
                rg_digits := only_digits rg
                nome_resp := nome_resp
                rg_resp_fmt := if rg_resp ≠ "" then format_rg rg_resp else "" }
              t s with
          | .error e => .rejeicao e
          | .ok (s', r) => .ok s' r
      | _, _ => .erroInterno
  | _, _, _ => .erroInterno

/-! ### Lemmas about digit normalization and formatting -/

theorem only_digits_data (s : String) :
    (only_digits s).data = s.data.filter Char.isDigit := rfl

theorem isDigit_of_mem_only_digits {c : Char} {s : String}
    (h : c ∈ (only_digits s).data) : c.isDigit := by
  rw [only_digits_data] at h
  exact (List.mem_filter.mp h).2

theorem filter_isDigit_all {l : List Char} (h : ∀ c ∈ l, c.isDigit) :
    l.filter Char.isDigit = l := List.filter_eq_self.mpr h

theorem only_digits_only_digits (s : String) :
    only_digits (only_digits s) = only_digits s := by
  apply String.ext
  rw [only_digits_data, only_digits_data]
  exact filter_isDigit_all (fun c hc => (List.mem_filter.mp hc).2)

theorem not_isDigit_of_isWhitespace {c : Char} (h : c.isWhitespace) :
    c.isDigit = false := by
  simp only [Char.isWhitespace, Bool.or_eq_true, decide_eq_true_eq] at h
  rcases h with ((h | h) | h) | h <;> subst h <;> decide

theorem filter_isDigit_dropWhile_ws (l : List Char) :
    (l.dropWhile Char.isWhitespace).filter Char.isDigit = l.filter Char.isDigit := by
  induction l with
  | nil => rfl
  | cons c cs ih =>
    by_cases h : Char.isWhitespace c
    · rw [List.dropWhile_cons_of_pos h, ih, List.filter_cons,
        not_isDigit_of_isWhitespace h]
      simp
    · rw [List.dropWhile_cons_of_neg h]

theorem only_digits_pyStrip (s : String) :
    only_digits (pyStrip s) = only_digits s := by
  apply String.ext
  rw [only_digits_data, only_digits_data]
  show ((((s.data.dropWhile Char.isWhitespace).reverse.dropWhile
      Char.isWhitespace).reverse).filter Char.isDigit) = s.data.filter Char.isDigit
  rw [List.filter_reverse, filter_isDigit_dropWhile_ws, List.filter_reverse,
    List.reverse_reverse, filter_isDigit_dropWhile_ws]

theorem segments_nine {l : List Char} (h : l.length = 9) :
    l.take 2 ++ ((l.drop 2).take 3 ++ ((l.drop 5).take 3 ++ (l.drop 8).take 1)) = l := by
  have h1 : (l.drop 8).take 1 = l.drop 8 :=
    List.take_of_length_le (by simp [h])
  have h2 : (l.drop 5).take 3 ++ l.drop 8 = l.drop 5 := by
    have hd : List.drop 3 (l.drop 5) = l.drop 8 := by rw [List.drop_drop]
    rw [← hd, List.take_append_drop]
  have h3 : (l.drop 2).take 3 ++ l.drop 5 = l.drop 2 := by
    have hd : List.drop 3 (l.drop 2) = l.drop 5 := by rw [List.drop_drop]
    rw [← hd, List.take_append_drop]
  rw [h1, h2, h3, List.take_append_drop]

theorem filter_format_rg_pieces {l : List Char} (hall : ∀ c ∈ l, c.isDigit)
    (h9 : l.length = 9) :
    List.filter Char.isDigit
      (l.take 2 ++ ['.'] ++ ((l.drop 2).take 3) ++ ['.'] ++ ((l.drop 5).take 3)
        ++ ['-'] ++ ((l.drop 8).take 1)) = l := by
  have f1 : (l.take 2).filter Char.isDigit = l.take 2 :=
    filter_isDigit_all (fun c hc => hall c (List.mem_of_mem_take hc))
  have f2 : ((l.drop 2).take 3).filter Char.isDigit = (l.drop 2).take 3 :=
    filter_isDigit_all
      (fun c hc => hall c (List.mem_of_mem_drop (List.mem_of_mem_take hc)))
  have f3 : ((l.drop 5).take 3).filter Char.isDigit = (l.drop 5).take 3 :=
    filter_isDigit_all
      (fun c hc => hall c (List.mem_of_mem_drop (List.mem_of_mem_take hc)))
  have f4 : ((l.drop 8).take 1).filter Char.isDigit = (l.drop 8).take 1 :=
    filter_isDigit_all
      (fun c hc => hall c (List.mem_of_mem_drop (List.mem_of_mem_take hc)))
  have fdot : List.filter Char.isDigit ['.'] = [] := rfl
  have fdash : List.filter Char.isDigit ['-'] = [] := rfl
  simp only [List.filter_append, f1, f2, f3, f4, fdot, fdash, List.append_nil,
    List.nil_append, List.append_assoc]
  exact segments_nine h9

theorem only_digits_format_rg (x : String) :
    only_digits (format_rg x) = only_digits x := by
  rw [format_rg]
  by_cases h : (only_digits x).length = 9
  · rw [if_pos h]
    apply String.ext
    rw [only_digits_data]
    exact filter_format_rg_pieces
      (fun c hc => isDigit_of_mem_only_digits hc) h
  · rw [if_neg h]
    exact only_digits_only_digits x

/-! ### Lemmas about the validation and insertion phases -/

theorem validar_idade_some {v : JsonValue} (h : validar_idade v = true) :
    ∃ i, pyInt v = some i ∧ 5 ≤ i ∧ i ≤ 100 := by
  unfold validar_idade at h
  cases hp : pyInt v with
  | none => rw [hp] at h; exact absurd h (by decide)
  | some i =>
      rw [hp] at h
      exact ⟨i, rfl, by simpa using h⟩

theorem valida_ok_elim {dados : Dados} {c : Candidato}
    (h : valida dados = .ok c) :
    pyStrip (dados.nome_completo.getD "") ≠ "" ∧
    validar_idade dados.idade = true ∧
    validar_telefone (pyStrip (dados.telefone.getD "")) = true ∧
    validar_rg (pyStrip (dados.rg.getD "")) = true ∧
    ((pyInt dados.idade).getD 0 < 18 →
      pyStrip (dados.nome_responsavel.getD "") ≠ "" ∧
      validar_rg (pyStrip (dados.rg_responsavel.getD "")) = true) ∧
    c = candidatoDe dados := by
  simp only [valida] at h
  by_cases h1 : pyStrip (dados.nome_completo.getD "") = ""
  · rw [if_pos h1] at h; cases h
  rw [if_neg h1] at h
  cases h2 : validar_idade dados.idade with
  | false => rw [if_pos (by simp [h2])] at h; cases h
  | true =>
  rw [if_neg (by simp [h2])] at h
  cases h3 : validar_telefone (pyStrip (dados.telefone.getD "")) with
  | false => rw [if_pos (by simp [h3])] at h; cases h
  | true =>
  rw [if_neg (by simp [h3])] at h
  cases h4 : validar_rg (pyStrip (dados.rg.getD "")) with
  | false => rw [if_pos (by simp [h4])] at h; cases h
  | true =>
  rw [if_neg (by simp [h4])] at h
  by_cases hlt : (pyInt dados.idade).getD 0 < 18
  · rw [if_pos hlt] at h
    by_cases h5 : pyStrip (dados.nome_responsavel.getD "") = ""
    · rw [if_pos (by simp [h5])] at h; cases h
    rw [if_neg (by simp [h5])] at h
    cases h6 : validar_rg (pyStrip (dados.rg_responsavel.getD "")) with
    | false => rw [if_pos (by simp [h6])] at h; cases h
    | true =>
    rw [if_neg (by simp [h6])] at h
    injection h with hc
    subst hc
    exact ⟨h1, rfl, rfl, rfl, fun _ => ⟨h5, rfl⟩, by simp [candidatoDe, hlt]⟩
  · rw [if_neg hlt] at h
    rw [if_neg (by simp)] at h
    rw [if_neg (by simp)] at h
    injection h with hc
    subst hc
    exact ⟨h1, rfl, rfl, rfl, fun hl => absurd hl hlt, by simp [candidatoDe, hlt]⟩

theorem valida_ok_intro (dados : Dados)
    (h1 : pyStrip (dados.nome_completo.getD "") ≠ "")
    (h2 : validar_idade dados.idade = true)
    (h3 : validar_telefone (pyStrip (dados.telefone.getD "")) = true)
    (h4 : validar_rg (pyStrip (dados.rg.getD "")) = true)
    (h5 : (pyInt dados.idade).getD 0 < 18 →
      pyStrip (dados.nome_responsavel.getD "") ≠ "" ∧
      validar_rg (pyStrip (dados.rg_responsavel.getD "")) = true) :
    valida dados = .ok (candidatoDe dados) := by
  simp only [valida, candidatoDe]
  rw [if_neg h1, if_neg (by simp [h2]), if_neg (by simp [h3]), if_neg (by simp [h4]),
    if_neg ?hn, if_neg ?hr]
  case hn =>
    by_cases hlt : (pyInt dados.idade).getD 0 < 18
    · simp [if_pos hlt, (h5 hlt).1]
    · simp [if_neg hlt]
  case hr =>
    by_cases hlt : (pyInt dados.idade).getD 0 < 18
    · simp [if_pos hlt, (h5 hlt).2]
    · simp [if_neg hlt]

theorem inserir_ok_elim {c : Candidato} {t : Nat} {s : Estado}
    {out : Estado × Registro} (h : inserir c t s = .ok out) :
    s.rows.any (fun r => only_digits r.rg = c.rg_digits) = false ∧
    out = ({ rows := s.rows ++ [registroNovo c t s.nextId], nextId := s.nextId + 1 },
           registroNovo c t s.nextId) := by
  unfold inserir at h
  split_ifs at h with hd
  injection h with h2
  exact ⟨by simpa using hd, h2.symm⟩

theorem inscrever_ok_elim {dados : Dados} {t : Nat} {s : Estado}
    {out : Estado × Registro} (h : inscrever dados t s = .ok out) :
    valida dados = .ok (candidatoDe dados) ∧
    inserir (candidatoDe dados) t s = .ok out := by
  unfold inscrever at h
  cases hv : valida dados with
  | error e => rw [hv] at h; cases h
  | ok c =>
      have hc : c = candidatoDe dados := (valida_ok_elim hv).2.2.2.2.2
      rw [hv] at h
      subst hc
      exact ⟨rfl, h⟩

theorem inscrever_error_of_valida {dados : Dados} {t : Nat} {s : Estado}
    {e : Erro} (h : valida dados = .error e) :
    inscrever dados t s = .error e := by
  unfold inscrever
  rw [h]

theorem inscrever_of_valida_ok {dados : Dados} {t : Nat} {s : Estado}
    {c : Candidato} (h : valida dados = .ok c) :
    inscrever dados t s = inserir c t s := by
  unfold inscrever
  rw [h]
theorem pyInt_int (i : Int) : pyInt (.num i 0) = some i := by
  simp [pyInt, pyTrunc]

theorem validar_idade_int (i : Int) :
    validar_idade (.num i 0) = decide (5 ≤ i ∧ i ≤ 100) := by
  rw [validar_idade, pyInt_int]

/-! ### Claims -/

/-- C8: digit normalization composed with document formatting is idempotent
with respect to digit content: for every input string `x`,
`only_digits (format_rg (only_digits x)) = only_digits x`. -/
theorem C8_normalization_idempotent (x : String) :
    only_digits (format_rg (only_digits x)) = only_digits x := by
  rw [only_digits_format_rg, only_digits_only_digits]

/-- C3 counterexample: the claim "for every malformed input the result is a
typed rejection carrying the human-readable reason of the failing rule, and
no exception is ever raised" fails on the program.  Submitting the phone as
the JSON number 1133334444 instead of a string makes line 186,
`(dados.get("telefone") or "").strip()`, raise `AttributeError`; the route's
broad `except` answers with the generic "Erro interno no servidor" (HTTP
500), not with the phone rule's typed "Telefone inválido" (HTTP 400)
rejection. -/
theorem C3_rule_order_counterexample :
    inscreverRota { nome_completo := .str "Ana", idade := .num 20 0,
                    telefone := .num 1133334444 0, rg := .str "1234567" } 0
      estadoVazio = .erroInterno ∧
    Saida.erroInterno ≠ .rejeicao .telefoneInvalido ∧
    msgErroInterno ≠ erroMsg .telefoneInvalido ∧
    statusErroInterno = 500 ∧
    erroStatus .telefoneInvalido = 400 :=
  ⟨by decide, by simp, by decide, rfl, rfl⟩

/-- C3 (amended): for every request whose text fields each survive the
string-extraction step `(dados.get(k) or "").strip()` — absent/null fields,
strings, and falsy values coerced to the empty string — the validation rules
run in the fixed order name, age, phone, identity document, then guardian
name and guardian document, the first failing rule determines the outcome,
and each rejection is typed and carries that rule's human-readable reason;
a truthy non-string text field instead raises `AttributeError` inside the
handler, which the route's broad `except` reports as the generic
internal-error outcome (HTTP 500, "Erro interno no servidor"), not as the
failing rule's typed reason.  The extractions themselves also happen in
source order: name, phone and document before any rule, the guardian fields
only after the first four rules pass. -/
theorem C3_rule_order_first_failure_wins :
    (∀ (dj : DadosJson) (t : Nat) (s : Estado) (nome telefone rg : String),
      pyStrField dj.nome_completo = some nome →
      pyStrField dj.telefone = some telefone →
      pyStrField dj.rg = some rg →
      nome = "" →
      inscreverRota dj t s = .rejeicao .nomeObrigatorio) ∧
    (∀ (dj : DadosJson) (t : Nat) (s : Estado) (nome telefone rg : String),
      pyStrField dj.nome_completo = some nome →
      pyStrField dj.telefone = some telefone →
      pyStrField dj.rg = some rg →
      nome ≠ "" →
      validar_idade dj.idade = false →
      inscreverRota dj t s = .rejeicao .idadeInvalida) ∧
    (∀ (dj : DadosJson) (t : Nat) (s : Estado) (nome telefone rg : String),
      pyStrField dj.nome_completo = some nome →
      pyStrField dj.telefone = some telefone →
      pyStrField dj.rg = some rg →
      nome ≠ "" →
      validar_idade dj.idade = true →
      validar_telefone telefone = false →
      inscreverRota dj t s = .rejeicao .telefoneInvalido) ∧
    (∀ (dj : DadosJson) (t : Nat) (s : Estado) (nome telefone rg : String),
      pyStrField dj.nome_completo = some nome →
      pyStrField dj.telefone = some telefone →
      pyStrField dj.rg = some rg →
      nome ≠ "" →
      validar_idade dj.idade = true →
      validar_telefone telefone = true →
      validar_rg rg = false →
      inscreverRota dj t s = .rejeicao .rgInvalido) ∧
    (∀ (dj : DadosJson) (t : Nat) (s : Estado)
      (nome telefone rg nome_resp rg_resp : String) (i : Int),
      pyStrField dj.nome_completo = some nome →
      pyStrField dj.telefone = some telefone →
      pyStrField dj.rg = some rg →
      nome ≠ "" →
      validar_idade dj.idade = true →
      validar_telefone telefone = true →
      validar_rg rg = true →
      pyStrField dj.nome_responsavel = some nome_resp →
      pyStrField dj.rg_responsavel = some rg_resp →
      pyInt dj.idade = some i → i < 18 →
      nome_resp = "" →
      inscreverRota dj t s = .rejeicao .nomeResponsavelObrigatorio) ∧
    (∀ (dj : DadosJson) (t : Nat) (s : Estado)
      (nome telefone rg nome_resp rg_resp : String) (i : Int),
      pyStrField dj.nome_completo = some nome →
      pyStrField dj.telefone = some telefone →
      pyStrField dj.rg = some rg →
      nome ≠ "" →
      validar_idade dj.idade = true →
      validar_telefone telefone = true →
      validar_rg rg = true →
      pyStrField dj.nome_responsavel = some nome_resp →
      pyStrField dj.rg_responsavel = some rg_resp →
      pyInt dj.idade = some i → i < 18 →
      nome_resp ≠ "" →
      validar_rg rg_resp = false →
      inscreverRota dj t s = .rejeicao .rgResponsavelInvalido) ∧
    (∀ (dj : DadosJson) (t : Nat) (s : Estado),
      pyStrField dj.nome_completo = none →
      inscreverRota dj t s = .erroInterno) ∧
    (∀ (dj : DadosJson) (t : Nat) (s : Estado) (nome : String),
      pyStrField dj.nome_completo = some nome →
      pyStrField dj.telefone = none →
      inscreverRota dj t s = .erroInterno) ∧
    (∀ (dj : DadosJson) (t : Nat) (s : Estado) (nome telefone : String),
      pyStrField dj.nome_completo = some nome →
      pyStrField dj.telefone = some telefone →
      pyStrField dj.rg = none →
      inscreverRota dj t s = .erroInterno) ∧
    (∀ (dj : DadosJson) (t : Nat) (s : Estado) (nome telefone rg : String),
      pyStrField dj.nome_completo = some nome →
      pyStrField dj.telefone = some telefone →
      pyStrField dj.rg = some rg →
      nome ≠ "" →
      validar_idade dj.idade = true →
      validar_telefone telefone = true →
      validar_rg rg = true →
      pyStrField dj.nome_responsavel = none →
      inscreverRota dj t s = .erroInterno) ∧
    (∀ (dj : DadosJson) (t : Nat) (s : Estado) (nome telefone rg nome_resp : String),
      pyStrField dj.nome_completo = some nome →
      pyStrField dj.telefone = some telefone →
      pyStrField dj.rg = some rg →
      nome ≠ "" →
      validar_idade dj.idade = true →
      validar_telefone telefone = true →
      validar_rg rg = true →
      pyStrField dj.nome_responsavel = some nome_resp →
      pyStrField dj.rg_responsavel = none →
      inscreverRota dj t s = .erroInterno) ∧
    (erroMsg .nomeObrigatorio = "Nome completo é obrigatório" ∧
     erroMsg .idadeInvalida = "Idade inválida" ∧
     erroMsg .telefoneInvalido = "Telefone inválido (use 10 ou 11 dígitos)" ∧
     erroMsg .rgInvalido = "RG inválido" ∧
     erroMsg .nomeResponsavelObrigatorio = "Nome do responsável é obrigatório" ∧
     erroMsg .rgResponsavelInvalido = "RG do responsável inválido" ∧
     erroMsg .rgJaCadastrado = "RG já cadastrado") ∧
    msgErroInterno = "Erro interno no servidor" ∧
    statusErroInterno = 500 := by
  refine ⟨?_, ?_, ?_, ?_, ?_, ?_, ?_, ?_, ?_, ?_, ?_,
    ⟨rfl, rfl, rfl, rfl, rfl, rfl, rfl⟩, rfl, rfl⟩
  · intro dj t s nome telefone rg hn ht hr he
    simp only [inscreverRota, hn, ht, hr]
    rw [if_pos he]
  · intro dj t s nome telefone rg hn ht hr h1 h2
    simp only [inscreverRota, hn, ht, hr]
    rw [if_neg h1, if_pos (by simp [h2])]
  · intro dj t s nome telefone rg hn ht hr h1 h2 h3
    simp only [inscreverRota, hn, ht, hr]
    rw [if_neg h1, if_neg (by simp [h2]), if_pos (by simp [h3])]
  · intro dj t s nome telefone rg hn ht hr h1 h2 h3 h4
    simp only [inscreverRota, hn, ht, hr]
    rw [if_neg h1, if_neg (by simp [h2]), if_neg (by simp [h3]),
      if_pos (by simp [h4])]
  · intro dj t s nome telefone rg nome_resp rg_resp i hn ht hr h1 h2 h3 h4 hrn hrr hp hlt h5
    simp only [inscreverRota, hn, ht, hr, hrn, hrr]
    rw [if_neg h1, if_neg (by simp [h2]), if_neg (by simp [h3]),
      if_neg (by simp [h4]), hp]
    rw [if_pos (by simp [Option.getD_some, hlt, h5])]
  · intro dj t s nome telefone rg nome_resp rg_resp i hn ht hr h1 h2 h3 h4 hrn hrr hp hlt h5 h6
    simp only [inscreverRota, hn, ht, hr, hrn, hrr]
    rw [if_neg h1, if_neg (by simp [h2]), if_neg (by simp [h3]),
      if_neg (by simp [h4]), hp]
    rw [if_neg (by simp [Option.getD_some, h5]),
      if_pos (by simp [Option.getD_some, hlt, h6])]
  · intro dj t s hn
    simp [inscreverRota, hn]
  · intro dj t s nome hn ht
    simp [inscreverRota, hn, ht]
  · intro dj t s nome telefone hn ht hr
    simp [inscreverRota, hn, ht, hr]
  · intro dj t s nome telefone rg hn ht hr h1 h2 h3 h4 hrn
    simp only [inscreverRota, hn, ht, hr]
    rw [if_neg h1, if_neg (by simp [h2]), if_neg (by simp [h3]),
      if_neg (by simp [h4])]
    simp [hrn]
  · intro dj t s nome telefone rg nome_resp hn ht hr h1 h2 h3 h4 hrn hrr
    simp only [inscreverRota, hn, ht, hr]
    rw [if_neg h1, if_neg (by simp [h2]), if_neg (by simp [h3]),
      if_neg (by simp [h4])]
    simp [hrn, hrr]

/-- Concrete instances of the amended rule-order claim: each string-typed
malformed input is rejected by exactly the first rule it violates, and a
truthy non-string phone lands in the generic internal-error outcome. -/
theorem C3_rule_order_witness :
    inscreverRota { nome_completo := .str "  " } 0 estadoVazio =
      .rejeicao .nomeObrigatorio ∧
    inscreverRota { nome_completo := .str "Ana", idade := .str "abc" } 0 estadoVazio =
      .rejeicao .idadeInvalida ∧
    inscreverRota { nome_completo := .str "Ana", idade := .num 20 0,
                    telefone := .str "123" } 0 estadoVazio =
      .rejeicao .telefoneInvalido ∧
    inscreverRota { nome_completo := .str "Ana", idade := .num 20 0,
                    telefone := .str "1133334444", rg := .str "12" } 0 estadoVazio =
      .rejeicao .rgInvalido ∧
    inscreverRota { nome_completo := .str "Ana", idade := .num 17 0,
                    telefone := .str "1133334444", rg := .str "1234567" } 0
      estadoVazio = .rejeicao .nomeResponsavelObrigatorio ∧
    inscreverRota { nome_completo := .str "Ana", idade := .num 17 0,
                    telefone := .str "1133334444", rg := .str "1234567",
                    nome_responsavel := .str "Bea", rg_responsavel := .str "99" } 0
      estadoVazio = .rejeicao .rgResponsavelInvalido ∧
    inscreverRota { nome_completo := .str "Ana", idade := .num 20 0,
                    telefone := .num 1133334444 0, rg := .str "1234567" } 0
      estadoVazio = .erroInterno := by
  refine ⟨?_, ?_, ?_, ?_, ?_, ?_, ?_⟩
  · exact C3_rule_order_first_failure_wins.1 _ 0 estadoVazio "" "" ""
      (by decide) (by decide) (by decide) rfl
  · exact C3_rule_order_first_failure_wins.2.1 _ 0 estadoVazio "Ana" "" ""
      (by decide) (by decide) (by decide) (by decide) (by decide)
  · exact C3_rule_order_first_failure_wins.2.2.1 _ 0 estadoVazio "Ana" "123" ""
      (by decide) (by decide) (by decide) (by decide) (by decide) (by decide)
  · exact C3_rule_order_first_failure_wins.2.2.2.1 _ 0 estadoVazio
      "Ana" "1133334444" "12"
      (by decide) (by decide) (by decide) (by decide) (by decide) (by decide)
      (by decide)
  · exact C3_rule_order_first_failure_wins.2.2.2.2.1 _ 0 estadoVazio
      "Ana" "1133334444" "1234567" "" "" 17
      (by decide) (by decide) (by decide) (by decide) (by decide) (by decide)
      (by decide) (by decide) (by decide) (by decide) (by decide) rfl
  · exact C3_rule_order_first_failure_wins.2.2.2.2.2.1 _ 0 estadoVazio
      "Ana" "1133334444" "1234567" "Bea" "99" 17
      (by decide) (by decide) (by decide) (by decide) (by decide) (by decide)
      (by decide) (by decide) (by decide) (by decide) (by decide) (by decide)
      (by decide)
  · exact C3_rule_order_first_failure_wins.2.2.2.2.2.2.2.1 _ 0 estadoVazio "Ana"
      (by decide) (by decide)

/-- C5: every integer age in `[5, 100]` passes the age check; every integer
outside it, and every value whose `int(...)` conversion fails (non-integer
string, null), is rejected with the "Idade inválida" reason; the check is a
total function (the conversion failure is caught, never thrown), and an
otherwise-valid submission with an in-range age is accepted end to end. -/
theorem C5_age_range :
    (∀ i : Int, 5 ≤ i → i ≤ 100 → validar_idade (.num i 0) = true) ∧
    (∀ i : Int, i < 5 ∨ 100 < i → validar_idade (.num i 0) = false) ∧
    (∀ s : String, parsePyInt s = none → validar_idade (.str s) = false) ∧
    validar_idade .null = false ∧
    (∀ (d : Dados) (t : Nat) (st : Estado),
      pyStrip (d.nome_completo.getD "") ≠ "" →
      validar_idade d.idade = false →
      inscrever d t st = .error .idadeInvalida ∧
        erroMsg .idadeInvalida = "Idade inválida") ∧
    (∀ (i : Int) (d : Dados) (t : Nat),
      5 ≤ i → i ≤ 100 →
      d.idade = .num i 0 →
      pyStrip (d.nome_completo.getD "") ≠ "" →
      validar_telefone (pyStrip (d.telefone.getD "")) = true →
      validar_rg (pyStrip (d.rg.getD "")) = true →
      (i < 18 → pyStrip (d.nome_responsavel.getD "") ≠ "" ∧
        validar_rg (pyStrip (d.rg_responsavel.getD "")) = true) →
      ∃ out, inscrever d t estadoVazio = .ok out) := by
  refine ⟨?_, ?_, ?_, rfl, ?_, ?_⟩
  · intro i h5 h100
    rw [validar_idade_int]
    simp [h5, h100]
  · intro i h
    rw [validar_idade_int]
    simp only [decide_eq_false_iff_not]
    omega
  · intro s hp
    simp [validar_idade, pyInt, hp]
  · intro d t st h1 h2
    refine ⟨?_, rfl⟩
    apply inscrever_error_of_valida
    simp only [valida]
    rw [if_neg h1, if_pos (by simp [h2])]
  · intro i d t h5 h100 hid h1 h3 h4 hg
    have hv : valida d = .ok (candidatoDe d) := by
      apply valida_ok_intro d h1 ?_ h3 h4 ?_
      · rw [hid, validar_idade_int]
        simp [h5, h100]
      · rw [hid, pyInt_int]
        simp only [Option.getD_some]
        exact hg
    refine ⟨({ rows := estadoVazio.rows ++ [registroNovo (candidatoDe d) t estadoVazio.nextId],
               nextId := estadoVazio.nextId + 1 },
             registroNovo (candidatoDe d) t estadoVazio.nextId), ?_⟩
    rw [inscrever_of_valida_ok hv]
    unfold inserir
    rw [if_neg (by simp [estadoVazio])]

/-- Concrete instances of the age-range claim: 42 and 5 accepted, 101 and 4
rejected, a decimal string rejected, and a full valid minor submission with
age 10 accepted end to end. -/
theorem C5_age_range_witness :
    validar_idade (.num 42 0) = true ∧
    validar_idade (.num 5 0) = true ∧
    validar_idade (.num 101 0) = false ∧
    validar_idade (.num 4 0) = false ∧
    validar_idade (.str "17.9") = false ∧
    (inscrever { nome_completo := some "Ana", idade := .num 200 0,
                 telefone := some "1133334444", rg := some "1234567" } 0 estadoVazio =
       .error .idadeInvalida ∧ erroMsg .idadeInvalida = "Idade inválida") ∧
    (∃ out,
      inscrever { nome_completo := some "Ana", idade := .num 10 0,
                  telefone := some "1133334444", rg := some "1234567",
                  nome_responsavel := some "Rita",
                  rg_responsavel := some "7654321" } 0 estadoVazio = .ok out) :=
  ⟨C5_age_range.1 42 (by decide) (by decide),
   C5_age_range.1 5 (by decide) (by decide),
   C5_age_range.2.1 101 (Or.inr (by decide)),
   C5_age_range.2.1 4 (Or.inl (by decide)),
   C5_age_range.2.2.1 "17.9" (by decide),
   C5_age_range.2.2.2.2.1 _ 0 estadoVazio (by decide) (by decide),
   C5_age_range.2.2.2.2.2 10 _ 0 (by decide) (by decide) rfl (by decide) (by decide)
     (by decide) (fun _ => ⟨by decide, by decide⟩)⟩

/-- C6: the listing endpoint returns exactly the persisted rows (a
permutation of the store), sorted descending by registration timestamp with
ties broken descending by id; on the concrete store holding A (t=1), B (t=2)
and C (t=2, later id) the listing is [C, B, A]. -/
theorem C6_listing_order :
    (∀ s : Estado, (listar_inscritos s).Perm s.rows) ∧
    (∀ s : Estado, List.Sorted RegLe (listar_inscritos s)) ∧
    listar_inscritos
      { rows :=
          [{ id := 1, nome_completo := "A", idade := 20, telefone := "(11) 3333-4444",
             rg := "1234567", eh_menor := 0, nome_responsavel := none,
             rg_responsavel := none, data_inscricao := 1, status := "pendente" },
           { id := 2, nome_completo := "B", idade := 21, telefone := "(11) 3333-4445",
             rg := "2234567", eh_menor := 0, nome_responsavel := none,
             rg_responsavel := none, data_inscricao := 2, status := "pendente" },
           { id := 3, nome_completo := "C", idade := 22, telefone := "(11) 3333-4446",
             rg := "3234567", eh_menor := 0, nome_responsavel := none,
             rg_responsavel := none, data_inscricao := 2, status := "pendente" }],
        nextId := 4 } =
      [{ id := 3, nome_completo := "C", idade := 22, telefone := "(11) 3333-4446",
         rg := "3234567", eh_menor := 0, nome_responsavel := none,
         rg_responsavel := none, data_inscricao := 2, status := "pendente" },
       { id := 2, nome_completo := "B", idade := 21, telefone := "(11) 3333-4445",
         rg := "2234567", eh_menor := 0, nome_responsavel := none,
         rg_responsavel := none, data_inscricao := 2, status := "pendente" },
       { id := 1, nome_completo := "A", idade := 20, telefone := "(11) 3333-4444",
         rg := "1234567", eh_menor := 0, nome_responsavel := none,
         rg_responsavel := none, data_inscricao := 1, status := "pendente" }] :=
  ⟨fun s => List.perm_insertionSort RegLe s.rows,
   fun s => List.sorted_insertionSort RegLe s.rows,
   by decide⟩
/-- C7: statistics report the number of persisted rows as total, the number
of rows with the minor flag set as minors, and adults always as the
difference total − minors; inserting ages 10, 25, 16 through the pipeline
yields total 3, minors 2, adults 1. -/
theorem C7_statistics :
    (∀ s : Estado,
      (estatisticas s).total_inscritos = s.rows.length ∧
      (estatisticas s).menores_de_18 =
        (s.rows.filter (fun r => r.eh_menor = 1)).length ∧
      (estatisticas s).maiores_de_18 =
        (estatisticas s).total_inscritos - (estatisticas s).menores_de_18) ∧
    (inscrever { nome_completo := some "Ana", idade := .num 10 0,
                 telefone := some "1133334444", rg := some "1234567",
                 nome_responsavel := some "Rita", rg_responsavel := some "7654321" }
       0 estadoVazio =
     .ok ({ rows := [{ id := 1, nome_completo := "Ana", idade := 10,
                       telefone := "(11) 3333-4444", rg := "1234567", eh_menor := 1,
                       nome_responsavel := some "Rita", rg_responsavel := some "7654321",
                       data_inscricao := 0, status := "pendente" }], nextId := 2 },
          { id := 1, nome_completo := "Ana", idade := 10,
            telefone := "(11) 3333-4444", rg := "1234567", eh_menor := 1,
            nome_responsavel := some "Rita", rg_responsavel := some "7654321",
            data_inscricao := 0, status := "pendente" })) ∧
    (inscrever { nome_completo := some "Bia", idade := .num 25 0,
                 telefone := some "1133334445", rg := some "2234567" } 1
       { rows := [{ id := 1, nome_completo := "Ana", idade := 10,
                    telefone := "(11) 3333-4444", rg := "1234567", eh_menor := 1,
                    nome_responsavel := some "Rita", rg_responsavel := some "7654321",
                    data_inscricao := 0, status := "pendente" }], nextId := 2 } =
     .ok ({ rows := [{ id := 1, nome_completo := "Ana", idade := 10,
                       telefone := "(11) 3333-4444", rg := "1234567", eh_menor := 1,
                       nome_responsavel := some "Rita", rg_responsavel := some "7654321",
                       data_inscricao := 0, status := "pendente" },
                     { id := 2, nome_completo := "Bia", idade := 25,
                       telefone := "(11) 3333-4445", rg := "2234567", eh_menor := 0,
                       nome_responsavel := none, rg_responsavel := none,
                       data_inscricao := 1, status := "pendente" }], nextId := 3 },
          { id := 2, nome_completo := "Bia", idade := 25,
            telefone := "(11) 3333-4445", rg := "2234567", eh_menor := 0,
            nome_responsavel := none, rg_responsavel := none,
            data_inscricao := 1, status := "pendente" })) ∧
    (inscrever { nome_completo := some "Carla", idade := .num 16 0,
                 telefone := some "1133334446", rg := some "3234567",
                 nome_responsavel := some "Rita", rg_responsavel := some "7654321" } 2
       { rows := [{ id := 1, nome_completo := "Ana", idade := 10,
                    telefone := "(11) 3333-4444", rg := "1234567", eh_menor := 1,
                    nome_responsavel := some "Rita", rg_responsavel := some "7654321",
                    data_inscricao := 0, status := "pendente" },
                  { id := 2, nome_completo := "Bia", idade := 25,
                    telefone := "(11) 3333-4445", rg := "2234567", eh_menor := 0,
                    nome_responsavel := none, rg_responsavel := none,
                    data_inscricao := 1, status := "pendente" }], nextId := 3 } =
     .ok ({ rows := [{ id := 1, nome_completo := "Ana", idade := 10,
                       telefone := "(11) 3333-4444", rg := "1234567", eh_menor := 1,
                       nome_responsavel := some "Rita", rg_responsavel := some "7654321",
                       data_inscricao := 0, status := "pendente" },
                     { id := 2, nome_completo := "Bia", idade := 25,
                       telefone := "(11) 3333-4445", rg := "2234567", eh_menor := 0,
                       nome_responsavel := none, rg_responsavel := none,
                       data_inscricao := 1, status := "pendente" },
                     { id := 3, nome_completo := "Carla", idade := 16,
                       telefone := "(11) 3333-4446", rg := "3234567", eh_menor := 1,
                       nome_responsavel := some "Rita", rg_responsavel := some "7654321",
                       data_inscricao := 2, status := "pendente" }], nextId := 4 },
          { id := 3, nome_completo := "Carla", idade := 16,
            telefone := "(11) 3333-4446", rg := "3234567", eh_menor := 1,
            nome_responsavel := some "Rita", rg_responsavel := some "7654321",
            data_inscricao := 2, status := "pendente" })) ∧
    estatisticas
      { rows := [{ id := 1, nome_completo := "Ana", idade := 10,
                   telefone := "(11) 3333-4444", rg := "1234567", eh_menor := 1,
                   nome_responsavel := some "Rita", rg_responsavel := some "7654321",
                   data_inscricao := 0, status := "pendente" },
                 { id := 2, nome_completo := "Bia", idade := 25,
                   telefone := "(11) 3333-4445", rg := "2234567", eh_menor := 0,
                   nome_responsavel := none, rg_responsavel := none,
                   data_inscricao := 1, status := "pendente" },
                 { id := 3, nome_completo := "Carla", idade := 16,
                   telefone := "(11) 3333-4446", rg := "3234567", eh_menor := 1,
                   nome_responsavel := some "Rita", rg_responsavel := some "7654321",
                   data_inscricao := 2, status := "pendente" }], nextId := 4 } =
      { total_inscritos := 3, menores_de_18 := 2, maiores_de_18 := 1 } :=
  ⟨fun _ => ⟨rfl, rfl, rfl⟩, by decide, by decide, by decide, by decide⟩

/-- C1: once an otherwise-valid submission is persisted, any second
otherwise-valid submission whose identity document has the same
digit-normalized form — however differently formatted — is rejected with the
distinct duplicate-identity outcome (HTTP 409, not a 400 validation error),
and nothing is persisted for it (an `.error` result leaves the store
untouched); the comparison re-derives the digit-only form of the stored
document rather than comparing the formatted stored string. -/
theorem C1_duplicate_identity
    (d1 d2 : Dados) (t1 t2 t3 : Nat) (s s1 : Estado) (r1 : Registro)
    (out : Estado × Registro)
    (h1 : inscrever d1 t1 s = .ok (s1, r1))
    (h2 : inscrever d2 t2 estadoVazio = .ok out)
    (hdig : only_digits (d2.rg.getD "") = only_digits (d1.rg.getD "")) :
    inscrever d2 t3 s1 = .error .rgJaCadastrado ∧
    erroStatus .rgJaCadastrado = 409 ∧
    erroStatus .rgJaCadastrado ≠ erroStatus .rgInvalido := by
  obtain ⟨hv1, hi1⟩ := inscrever_ok_elim h1
  obtain ⟨-, hpair⟩ := inserir_ok_elim hi1
  have hs1 : s1 = { rows := s.rows ++ [registroNovo (candidatoDe d1) t1 s.nextId],
                    nextId := s.nextId + 1 } := congrArg Prod.fst hpair
  obtain ⟨hv2, -⟩ := inscrever_ok_elim h2
  refine ⟨?_, rfl, by decide⟩
  have hkey : only_digits (registroNovo (candidatoDe d1) t1 s.nextId).rg =
      (candidatoDe d2).rg_digits := by
    show only_digits (format_rg (pyStrip (d1.rg.getD ""))) =
      only_digits (pyStrip (d2.rg.getD ""))
    rw [only_digits_format_rg, only_digits_pyStrip, only_digits_pyStrip]
    exact hdig.symm
  have hcond : ({ rows := s.rows ++ [registroNovo (candidatoDe d1) t1 s.nextId],
                  nextId := s.nextId + 1 } : Estado).rows.any
      (fun r => only_digits r.rg = (candidatoDe d2).rg_digits) = true := by
    apply List.any_eq_true.mpr
    exact ⟨registroNovo (candidatoDe d1) t1 s.nextId,
      List.mem_append_right _ (List.mem_singleton.mpr rfl), decide_eq_true hkey⟩
  rw [inscrever_of_valida_ok hv2, hs1]
  unfold inserir
  rw [if_pos hcond]

/-- Concrete duplicate collision across formats: a document stored from
`123.456.789-0` collides with an incoming `12345678 90` (same ten digits)
and is rejected with the 409 duplicate outcome. -/
theorem C1_duplicate_identity_witness :
    inscrever { nome_completo := some "Jose Lima", idade := .num 22 0,
                telefone := some "1133334444", rg := some "12345678 90" } 1
      { rows := [{ id := 1, nome_completo := "Maria Souza", idade := 30,
                   telefone := "(11) 98765-4321", rg := "1234567890", eh_menor := 0,
                   nome_responsavel := none, rg_responsavel := none,
                   data_inscricao := 0, status := "pendente" }], nextId := 2 } =
      .error .rgJaCadastrado ∧
    erroStatus .rgJaCadastrado = 409 ∧
    erroStatus .rgJaCadastrado ≠ erroStatus .rgInvalido :=
  C1_duplicate_identity
    { nome_completo := some "Maria Souza", idade := .num 30 0,
      telefone := some "11987654321", rg := some "123.456.789-0" }
    { nome_completo := some "Jose Lima", idade := .num 22 0,
      telefone := some "1133334444", rg := some "12345678 90" }
    0 0 1 estadoVazio
    { rows := [{ id := 1, nome_completo := "Maria Souza", idade := 30,
                 telefone := "(11) 98765-4321", rg := "1234567890", eh_menor := 0,
                 nome_responsavel := none, rg_responsavel := none,
                 data_inscricao := 0, status := "pendente" }], nextId := 2 }
    { id := 1, nome_completo := "Maria Souza", idade := 30,
      telefone := "(11) 98765-4321", rg := "1234567890", eh_menor := 0,
      nome_responsavel := none, rg_responsavel := none,
      data_inscricao := 0, status := "pendente" }
    ({ rows := [{ id := 1, nome_completo := "Jose Lima", idade := 22,
                  telefone := "(11) 3333-4444", rg := "1234567890", eh_menor := 0,
                  nome_responsavel := none, rg_responsavel := none,
                  data_inscricao := 0, status := "pendente" }], nextId := 2 },
     { id := 1, nome_completo := "Jose Lima", idade := 22,
       telefone := "(11) 3333-4444", rg := "1234567890", eh_menor := 0,
       nome_responsavel := none, rg_responsavel := none,
       data_inscricao := 0, status := "pendente" })
    (by decide) (by decide) (by decide)
theorem validar_rg_true_iff (x : String) :
    validar_rg x = true ↔
      7 ≤ (only_digits x).length ∧ (only_digits x).length ≤ 12 := by
  rw [validar_rg]
  simp

/-- C2: for a minor submission (parsed age < 18) that passed the earlier
rules, an empty (after trimming) guardian name rejects with the
guardian-name reason, and a guardian document whose digit-normalized length
is outside [7, 12] rejects with the guardian-document reason; for an adult
submission (parsed age ≥ 18) every persisted record carries both guardian
columns as NULL, whatever guardian data the caller supplied. -/
theorem C2_guardian_branching :
    (∀ (d : Dados) (t : Nat) (s : Estado) (i : Int),
      pyStrip (d.nome_completo.getD "") ≠ "" →
      validar_idade d.idade = true →
      validar_telefone (pyStrip (d.telefone.getD "")) = true →
      validar_rg (pyStrip (d.rg.getD "")) = true →
      pyInt d.idade = some i → i < 18 →
      pyStrip (d.nome_responsavel.getD "") = "" →
      inscrever d t s = .error .nomeResponsavelObrigatorio ∧
        erroMsg .nomeResponsavelObrigatorio = "Nome do responsável é obrigatório") ∧
    (∀ (d : Dados) (t : Nat) (s : Estado) (i : Int),
      pyStrip (d.nome_completo.getD "") ≠ "" →
      validar_idade d.idade = true →
      validar_telefone (pyStrip (d.telefone.getD "")) = true →
      validar_rg (pyStrip (d.rg.getD "")) = true →
      pyInt d.idade = some i → i < 18 →
      pyStrip (d.nome_responsavel.getD "") ≠ "" →
      ¬(7 ≤ (only_digits (pyStrip (d.rg_responsavel.getD ""))).length ∧
        (only_digits (pyStrip (d.rg_responsavel.getD ""))).length ≤ 12) →
      inscrever d t s = .error .rgResponsavelInvalido ∧
        erroMsg .rgResponsavelInvalido = "RG do responsável inválido") ∧
    (∀ (d : Dados) (t : Nat) (s s' : Estado) (r : Registro) (i : Int),
      pyInt d.idade = some i → 18 ≤ i →
      inscrever d t s = .ok (s', r) →
      r.nome_responsavel = none ∧ r.rg_responsavel = none) := by
  refine ⟨?_, ?_, ?_⟩
  · intro d t s i h1 h2 h3 h4 hp hlt h5
    refine ⟨?_, rfl⟩
    apply inscrever_error_of_valida
    simp only [valida]
    rw [if_neg h1, if_neg (by simp [h2]), if_neg (by simp [h3]),
      if_neg (by simp [h4]), hp]
    rw [if_pos (by simp [Option.getD_some, hlt, h5])]
  · intro d t s i h1 h2 h3 h4 hp hlt h5 hlen
    have h6 : validar_rg (pyStrip (d.rg_responsavel.getD "")) = false :=
      Bool.eq_false_iff.mpr (fun htrue => hlen ((validar_rg_true_iff _).mp htrue))
    refine ⟨?_, rfl⟩
    apply inscrever_error_of_valida
    simp only [valida]
    rw [if_neg h1, if_neg (by simp [h2]), if_neg (by simp [h3]),
      if_neg (by simp [h4]), hp]
    rw [if_neg (by simp [Option.getD_some, h5]),
      if_pos (by simp [Option.getD_some, hlt, h6])]
  · intro d t s s' r i hp h18 hok
    obtain ⟨hv, hi⟩ := inscrever_ok_elim hok
    obtain ⟨-, hpair⟩ := inserir_ok_elim hi
    have hr : r = registroNovo (candidatoDe d) t s.nextId := congrArg Prod.snd hpair
    subst hr
    have hm : (candidatoDe d).eh_menor = 0 := by
      show (if (pyInt d.idade).getD 0 < 18 then (1 : Nat) else 0) = 0
      rw [hp]
      simp only [Option.getD_some]
      rw [if_neg (by omega)]
    constructor
    · show (if (candidatoDe d).eh_menor = 1 then some (candidatoDe d).nome_resp
            else none) = none
      rw [hm]
      simp
    · show (if (candidatoDe d).eh_menor = 1 then some (candidatoDe d).rg_resp_fmt
            else none) = none
      rw [hm]
      simp

/-- Concrete instances of the guardian branching: age 17 with a blank
guardian name rejects; age 17 with a two-digit guardian document rejects;
age 18 with guardian fields supplied persists with both guardian columns
NULL. -/
theorem C2_guardian_branching_witness :
    inscrever { nome_completo := some "Ana", idade := .num 17 0,
                telefone := some "1133334444", rg := some "1234567",
                nome_responsavel := some "   " } 0 estadoVazio =
      .error .nomeResponsavelObrigatorio ∧
    inscrever { nome_completo := some "Ana", idade := .num 17 0,
                telefone := some "1133334444", rg := some "1234567",
                nome_responsavel := some "Rita", rg_responsavel := some "99" } 0
      estadoVazio = .error .rgResponsavelInvalido ∧
    ({ id := 1, nome_completo := "Eva", idade := 18, telefone := "(11) 3333-4444",
       rg := "4234567", eh_menor := 0, nome_responsavel := none,
       rg_responsavel := none, data_inscricao := 0,
       status := "pendente" } : Registro).nome_responsavel = none ∧
    ({ id := 1, nome_completo := "Eva", idade := 18, telefone := "(11) 3333-4444",
       rg := "4234567", eh_menor := 0, nome_responsavel := none,
       rg_responsavel := none, data_inscricao := 0,
       status := "pendente" } : Registro).rg_responsavel = none := by
  refine ⟨?_, ?_, ?_, ?_⟩
  · exact (C2_guardian_branching.1 _ 0 estadoVazio 17 (by decide) (by decide)
      (by decide) (by decide) (by decide) (by decide) (by decide)).1
  · exact (C2_guardian_branching.2.1 _ 0 estadoVazio 17 (by decide) (by decide)
      (by decide) (by decide) (by decide) (by decide) (by decide) (by decide)).1
  · exact (C2_guardian_branching.2.2
      { nome_completo := some "Eva", idade := .num 18 0,
        telefone := some "1133334444", rg := some "4234567",
        nome_responsavel := some "Rita", rg_responsavel := some "7654321" }
      0 estadoVazio
      { rows := [{ id := 1, nome_completo := "Eva", idade := 18,
                   telefone := "(11) 3333-4444", rg := "4234567", eh_menor := 0,
                   nome_responsavel := none, rg_responsavel := none,
                   data_inscricao := 0, status := "pendente" }], nextId := 2 }
      _ 18 (by decide) (by decide) (by decide)).1
  · exact (C2_guardian_branching.2.2
      { nome_completo := some "Eva", idade := .num 18 0,
        telefone := some "1133334444", rg := some "4234567",
        nome_responsavel := some "Rita", rg_responsavel := some "7654321" }
      0 estadoVazio
      { rows := [{ id := 1, nome_completo := "Eva", idade := 18,
                   telefone := "(11) 3333-4444", rg := "4234567", eh_menor := 0,
                   nome_responsavel := none, rg_responsavel := none,
                   data_inscricao := 0, status := "pendente" }], nextId := 2 }
      _ 18 (by decide) (by decide) (by decide)).2
/-- C4: every accepted submission is persisted with the identity document
formatted `NN.NNN.NNN-N` when its digit form has exactly 9 digits and as the
bare digit string otherwise, the phone formatted `(DD) DDDD-DDDD` for 10
digits and `(DD) DDDDD-DDDD` for 11 digits, and the minor flag derived as
stored age < 18. -/
theorem C4_persisted_formats
    (d : Dados) (t : Nat) (s s' : Estado) (r : Registro)
    (h : inscrever d t s = .ok (s', r)) :
    ((only_digits (pyStrip (d.rg.getD ""))).length = 9 →
      r.rg = String.mk
        ((only_digits (pyStrip (d.rg.getD ""))).data.take 2 ++ ['.'] ++
         (((only_digits (pyStrip (d.rg.getD ""))).data.drop 2).take 3) ++ ['.'] ++
         (((only_digits (pyStrip (d.rg.getD ""))).data.drop 5).take 3) ++ ['-'] ++
         (((only_digits (pyStrip (d.rg.getD ""))).data.drop 8).take 1))) ∧
    ((only_digits (pyStrip (d.rg.getD ""))).length ≠ 9 →
      r.rg = only_digits (pyStrip (d.rg.getD ""))) ∧
    ((only_digits (pyStrip (d.telefone.getD ""))).length = 10 →
      r.telefone = String.mk
        (['('] ++ (only_digits (pyStrip (d.telefone.getD ""))).data.take 2 ++
         [')', ' '] ++
         (((only_digits (pyStrip (d.telefone.getD ""))).data.drop 2).take 4) ++
         ['-'] ++
         (((only_digits (pyStrip (d.telefone.getD ""))).data.drop 6).take 4))) ∧
    ((only_digits (pyStrip (d.telefone.getD ""))).length = 11 →
      r.telefone = String.mk
        (['('] ++ (only_digits (pyStrip (d.telefone.getD ""))).data.take 2 ++
         [')', ' '] ++
         (((only_digits (pyStrip (d.telefone.getD ""))).data.drop 2).take 5) ++
         ['-'] ++
         (((only_digits (pyStrip (d.telefone.getD ""))).data.drop 7).take 4))) ∧
    (r.eh_menor = 1 ↔ r.idade < 18) ∧
    r.idade = (pyInt d.idade).getD 0 := by
  obtain ⟨hv, hi⟩ := inscrever_ok_elim h
  obtain ⟨-, hpair⟩ := inserir_ok_elim hi
  have hr : r = registroNovo (candidatoDe d) t s.nextId := congrArg Prod.snd hpair
  subst hr
  refine ⟨?_, ?_, ?_, ?_, ?_, rfl⟩
  · intro h9
    show format_rg (pyStrip (d.rg.getD "")) = _
    rw [format_rg, if_pos h9]
  · intro h9
    show format_rg (pyStrip (d.rg.getD "")) = _
    rw [format_rg, if_neg h9]
  · intro h10
    show format_phone (pyStrip (d.telefone.getD "")) = _
    rw [format_phone, if_pos h10]
  · intro h11
    show format_phone (pyStrip (d.telefone.getD "")) = _
    rw [format_phone, if_neg (by omega), if_pos h11]
  · show ((if (pyInt d.idade).getD 0 < 18 then (1 : Nat) else 0) = 1) ↔
      (pyInt d.idade).getD 0 < 18
    split_ifs with hx <;> simp [hx]

/-- The end-to-end example: Ana Silva, age 25, phone `11987654321`, document
`123456789` is persisted with document `12.345.678-9`, phone
`(11) 98765-4321` and the minor flag off; resubmitting the same document
digits with a different phone is rejected as a duplicate. -/
theorem C4_persisted_formats_witness :
    ({ id := 1, nome_completo := "Ana Silva", idade := 25,
       telefone := "(11) 98765-4321", rg := "12.345.678-9", eh_menor := 0,
       nome_responsavel := none, rg_responsavel := none, data_inscricao := 0,
       status := "pendente" } : Registro).rg = "12.345.678-9" ∧
    ({ id := 1, nome_completo := "Ana Silva", idade := 25,
       telefone := "(11) 98765-4321", rg := "12.345.678-9", eh_menor := 0,
       nome_responsavel := none, rg_responsavel := none, data_inscricao := 0,
       status := "pendente" } : Registro).telefone = "(11) 98765-4321" ∧
    (({ id := 1, nome_completo := "Ana Silva", idade := 25,
        telefone := "(11) 98765-4321", rg := "12.345.678-9", eh_menor := 0,
        nome_responsavel := none, rg_responsavel := none, data_inscricao := 0,
        status := "pendente" } : Registro).eh_menor = 1 ↔
      ({ id := 1, nome_completo := "Ana Silva", idade := 25,
         telefone := "(11) 98765-4321", rg := "12.345.678-9", eh_menor := 0,
         nome_responsavel := none, rg_responsavel := none, data_inscricao := 0,
         status := "pendente" } : Registro).idade < 18) ∧
    inscrever { nome_completo := some "Outra Pessoa", idade := .num 30 0,
                telefone := some "1144445555", rg := some "123456789" } 1
      { rows := [{ id := 1, nome_completo := "Ana Silva", idade := 25,
                   telefone := "(11) 98765-4321", rg := "12.345.678-9", eh_menor := 0,
                   nome_responsavel := none, rg_responsavel := none,
                   data_inscricao := 0, status := "pendente" }], nextId := 2 } =
      .error .rgJaCadastrado := by
  have h := C4_persisted_formats
    { nome_completo := some "Ana Silva", idade := .num 25 0,
      telefone := some "11987654321", rg := some "123456789" }
    0 estadoVazio
    { rows := [{ id := 1, nome_completo := "Ana Silva", idade := 25,
                 telefone := "(11) 98765-4321", rg := "12.345.678-9", eh_menor := 0,
                 nome_responsavel := none, rg_responsavel := none,
                 data_inscricao := 0, status := "pendente" }], nextId := 2 }
    { id := 1, nome_completo := "Ana Silva", idade := 25,
      telefone := "(11) 98765-4321", rg := "12.345.678-9", eh_menor := 0,
      nome_responsavel := none, rg_responsavel := none, data_inscricao := 0,
      status := "pendente" }
    (by decide)
  exact ⟨(h.1 (by decide)).trans (by decide),
         (h.2.2.2.1 (by decide)).trans (by decide),
         h.2.2.2.2.1,
         by decide⟩

/-- C10: a JSON number with a fractional part whose truncation toward zero
lies in [5, 100] passes the age check, and any accepted submission carrying
such a number is persisted with the truncated age and the minor flag derived
from the truncated value — age 17.9 is stored as a 17-year-old minor — while
the same number supplied as the string "17.9" is rejected as invalid age.
(JSON numbers are modelled as exact decimals; Python `int()` on them is
truncation toward zero.) -/
theorem C10_fractional_age :
    (∀ (m : Int) (e : Nat),
      pyTrunc m e * (10 : Int) ^ e ≠ m →
      5 ≤ pyTrunc m e → pyTrunc m e ≤ 100 →
      validar_idade (.num m e) = true) ∧
    (∀ (d : Dados) (t : Nat) (s s' : Estado) (r : Registro) (m : Int) (e : Nat),
      d.idade = .num m e →
      inscrever d t s = .ok (s', r) →
      r.idade = pyTrunc m e ∧ (r.eh_menor = 1 ↔ pyTrunc m e < 18)) ∧
    pyTrunc 179 1 = 17 ∧
    parsePyInt "17.9" = none ∧
    validar_idade (.str "17.9") = false := by
  refine ⟨?_, ?_, by decide, by decide, by decide⟩
  · intro m e _ h5 h100
    simp [validar_idade, pyInt, h5, h100]
  · intro d t s s' r m e hid hok
    obtain ⟨hv, hi⟩ := inscrever_ok_elim hok
    obtain ⟨-, hpair⟩ := inserir_ok_elim hi
    have hr : r = registroNovo (candidatoDe d) t s.nextId := congrArg Prod.snd hpair
    subst hr
    have hg : (pyInt d.idade).getD 0 = pyTrunc m e := by
      rw [hid]
      rfl
    constructor
    · show (pyInt d.idade).getD 0 = pyTrunc m e
      exact hg
    · show ((if (pyInt d.idade).getD 0 < 18 then (1 : Nat) else 0) = 1) ↔
        pyTrunc m e < 18
      rw [hg]
      split_ifs with hx <;> simp [hx]

/-- Concrete instance: a submission with age 17.9 (decimal 179 × 10⁻¹) is
accepted and stored as a 17-year-old minor, while the string "17.9" is
rejected. -/
theorem C10_fractional_age_witness :
    validar_idade (.num 179 1) = true ∧
    ({ id := 1, nome_completo := "Duda", idade := 17, telefone := "(11) 98765-4321",
       rg := "55.566.677-7", eh_menor := 1, nome_responsavel := some "Rita",
       rg_responsavel := some "7654321", data_inscricao := 3,
       status := "pendente" } : Registro).idade = pyTrunc 179 1 ∧
    (({ id := 1, nome_completo := "Duda", idade := 17, telefone := "(11) 98765-4321",
        rg := "55.566.677-7", eh_menor := 1, nome_responsavel := some "Rita",
        rg_responsavel := some "7654321", data_inscricao := 3,
        status := "pendente" } : Registro).eh_menor = 1 ↔ pyTrunc 179 1 < 18) ∧
    validar_idade (.str "17.9") = false := by
  have h := C10_fractional_age.2.1
    { nome_completo := some "Duda", idade := .num 179 1,
      telefone := some "11987654321", rg := some "555666777",
      nome_responsavel := some "Rita", rg_responsavel := some "7654321" }
    3 estadoVazio
    { rows := [{ id := 1, nome_completo := "Duda", idade := 17,
                 telefone := "(11) 98765-4321", rg := "55.566.677-7", eh_menor := 1,
                 nome_responsavel := some "Rita", rg_responsavel := some "7654321",
                 data_inscricao := 3, status := "pendente" }], nextId := 2 }
    { id := 1, nome_completo := "Duda", idade := 17, telefone := "(11) 98765-4321",
      rg := "55.566.677-7", eh_menor := 1, nome_responsavel := some "Rita",
      rg_responsavel := some "7654321", data_inscricao := 3, status := "pendente" }
    179 1 rfl (by decide)
  exact ⟨C10_fractional_age.1 179 1 (by decide) (by decide) (by decide),
         h.1, h.2, C10_fractional_age.2.2.2.2⟩
